import Mathlib

/-!
Shallow embedding of the order-management service in `src/main.py` together
with the storage schema of `src/init_db.py`.

Modelling conventions:
* The SQLite database is a `Store` of four row lists (`customers`, `items`,
  `orders`, `item_list`), mirroring the tables created by `init_db.py`.
* Every endpoint handler becomes a function
  `Store → … → Except ApiError (Store × response)`.  `db_connection` commits
  on success and rolls back on any exception, so a handler that raises maps
  to `.error e` (the store is unchanged by construction — that is exactly the
  rollback), and a handler that returns maps to `.ok (newStore, response)`.
* Python `float` prices are modelled as exact rationals (`Rat`); SQLite
  `INTEGER` ids and timestamps as `Int`.
* `INTEGER PRIMARY KEY` id assignment follows SQLite's rowid rule:
  the new id is `max(existing ids, 0) + 1`.
* The `UNIQUE(order_id, item_id)` constraint of the `item_list` table
  (`src/init_db.py` lines 34–42) makes a duplicate insert raise
  `sqlite3.IntegrityError`, which the order handlers catch as a generic
  `Exception` and turn into HTTP 500; this is the `internalError` case.
-/

/-- A row of the `customers` table: `id INTEGER PRIMARY KEY, name, phone UNIQUE`. -/
structure CustomerRow where
  id : Int
  name : String
  phone : String
deriving Repr, DecidableEq

/-- A row of the `items` table: `id INTEGER PRIMARY KEY, name UNIQUE, price REAL`. -/
structure ItemRow where
  id : Int
  name : String
  price : Rat
deriving Repr, DecidableEq

/-- A row of the `orders` table: `id INTEGER PRIMARY KEY, timestamp, cust_id, notes`. -/
structure OrderRow where
  id : Int
  timestamp : Int
  cust_id : Int
  notes : Option String
deriving Repr, DecidableEq

/-- A row of the `item_list` association table: `(order_id, item_id)` with
`UNIQUE(order_id, item_id)`. -/
structure ItemListRow where
  order_id : Int
  item_id : Int
deriving Repr, DecidableEq

/-- The whole SQLite database state. -/
structure Store where
  customers : List CustomerRow
  items : List ItemRow
  orders : List OrderRow
  item_list : List ItemListRow
deriving Repr, DecidableEq

/-- The errors the handlers raise.  Each corresponds to one
`HTTPException(status_code, detail)` in `src/main.py`; `invalidItemIds`
carries the full list that the f-string detail interpolates, and
`internalError` stands for the catch-all `except Exception` 500 responses
(raised e.g. when an `INSERT` violates a storage constraint). -/
inductive ApiError where
  | customerNotFound
  | itemNotFound
  | orderNotFound
  | customerIdMismatch
  | itemIdMismatch
  | orderIdMismatch
  | emptyOrderItems
  | invalidItemIds (ids : List Int)
  | customerHasOrders
  | itemInUse
  | conflictCustomerPhone
  | conflictItemName
  | priceValidation
  | internalError
deriving Repr, DecidableEq

/-- The HTTP status code each error is surfaced with. -/
def ApiError.status : ApiError → Nat
  | .customerNotFound => 404
  | .itemNotFound => 404
  | .orderNotFound => 404
  | .customerIdMismatch => 400
  | .itemIdMismatch => 400
  | .orderIdMismatch => 400
  | .emptyOrderItems => 400
  | .invalidItemIds _ => 404
  | .customerHasOrders => 400
  | .itemInUse => 400
  | .conflictCustomerPhone => 400
  | .conflictItemName => 400
  | .priceValidation => 422
  | .internalError => 500

/-- Request body of `POST /customers` and `PUT /customers/{id}` (the
pydantic `Customer` model, after boundary validation). -/
structure CustomerReq where
  id : Option Int
  name : String
  phone : String
deriving Repr, DecidableEq

/-- Request body of `PUT /items/{id}` (the pydantic `Item` model after
boundary validation: the price has already been coerced to a float). -/
structure ItemReq where
  id : Option Int
  name : String
  price : Rat
deriving Repr, DecidableEq

/-- Request body of `POST /orders` and `PUT /orders/{id}` (the pydantic
`Order` model). -/
structure OrderReq where
  id : Option Int
  cust_id : Int
  notes : Option String
  items : List Int
deriving Repr, DecidableEq

/-- `SELECT * FROM customers WHERE id = ?` (first row). -/
def findCustomer (s : Store) (cid : Int) : Option CustomerRow :=
  s.customers.find? (fun c => c.id == cid)

/-- `SELECT * FROM items WHERE id = ?` (first row). -/
def findItem (s : Store) (iid : Int) : Option ItemRow :=
  s.items.find? (fun i => i.id == iid)

/-- `SELECT * FROM orders WHERE id = ?` (first row). -/
def findOrder (s : Store) (oid : Int) : Option OrderRow :=
  s.orders.find? (fun o => o.id == oid)

/-- SQLite rowid assignment for `INTEGER PRIMARY KEY`: largest existing
rowid plus one (`cursor.lastrowid` after the `INSERT`). -/
def freshId (ids : List Int) : Int :=
  ids.foldl max 0 + 1

/-- One formatted item of an order response: `{"name": …, "price": …}`. -/
structure ItemOut where
  name : String
  price : Rat
deriving Repr, DecidableEq

/-- The shaped order response
`{id, timestamp, name, phone, notes, items}` built by
`format_order_rows_to_dict`. -/
structure OrderOut where
  id : Int
  timestamp : Int
  name : String
  phone : String
  notes : Option String
  items : List ItemOut
deriving Repr, DecidableEq

/-- `get_order_items` (main.py 96–115): the
`SELECT i.name, i.price FROM items JOIN item_list ON i.id = il.item_id
WHERE il.order_id = ?` query followed by dict formatting.  The inner join is
modelled by scanning `item_list` in table order and looking each `item_id`
up in `items` (rows whose item is missing simply do not join).  The Python
`if items: … else: return []` branches both produce the same list, so the
model is the direct mapping. -/
def get_order_items (s : Store) (oid : Int) : List ItemOut :=
  (s.item_list.filter (fun il => il.order_id == oid)).filterMap
    (fun il => (s.items.find? (fun i => i.id == il.item_id)).map
      (fun i => { name := i.name, price := i.price }))

/-- A raw row of the order/customer join
`SELECT o.id, o.timestamp, c.name, c.phone, o.notes …`. -/
structure OrderJoinRow where
  oid : Int
  timestamp : Int
  cname : String
  cphone : String
  notes : Option String
deriving Repr, DecidableEq

/-- `format_order_rows_to_dict` (main.py 118–129): shape each join row and
attach its item list via `get_order_items`. -/
def format_order_rows_to_dict (s : Store) (rows : List OrderJoinRow) : List OrderOut :=
  rows.map (fun r =>
    { id := r.oid, timestamp := r.timestamp, name := r.cname,
      phone := r.cphone, notes := r.notes,
      items := get_order_items s r.oid })

/-- The join
`SELECT o.id, o.timestamp, c.name, c.phone, o.notes FROM orders JOIN
customers ON c.id = o.cust_id WHERE o.id = ?` used by the order handlers:
first row, or `none` when the order is absent (or its customer does not
join). -/
def orderJoinCustomer (s : Store) (oid : Int) : Option OrderJoinRow :=
  (findOrder s oid).bind (fun o =>
    (findCustomer s o.cust_id).map (fun c =>
      { oid := o.id, timestamp := o.timestamp, cname := c.name,
        cphone := c.phone, notes := o.notes }))

/-- `get_customer` (main.py 157–170). -/
def get_customer (s : Store) (cid : Int) : Except ApiError (Store × CustomerRow) :=
  match findCustomer s cid with
  | some row => .ok (s, row)
  | none => .error .customerNotFound

/-- `get_item` (main.py 256–269). -/
def get_item (s : Store) (iid : Int) : Except ApiError (Store × ItemRow) :=
  match findItem s iid with
  | some row => .ok (s, row)
  | none => .error .itemNotFound

/-- `delete_customer` (main.py 205–229): existence check, then the
referential guard `SELECT 1 FROM orders WHERE cust_id = ? LIMIT 1`, then
`DELETE FROM customers WHERE id = ?`. -/
def delete_customer (s : Store) (cid : Int) : Except ApiError (Store × String) :=
  match findCustomer s cid with
  | none => .error .customerNotFound
  | some _ =>
    if s.orders.any (fun o => o.cust_id == cid) then
      .error .customerHasOrders
    else
      .ok ({ s with customers := s.customers.filter (fun c => !(c.id == cid)) },
           "Customer deleted successfully")

/-- `delete_item` (main.py 304–328): existence check, then the guard
`SELECT 1 FROM item_list WHERE item_id = ? LIMIT 1`, then
`DELETE FROM items WHERE id = ?`. -/
def delete_item (s : Store) (iid : Int) : Except ApiError (Store × String) :=
  match findItem s iid with
  | none => .error .itemNotFound
  | some _ =>
    if s.item_list.any (fun il => il.item_id == iid) then
      .error .itemInUse
    else
      .ok ({ s with items := s.items.filter (fun i => !(i.id == iid)) },
           "Item deleted successfully")

/-- The numeric payload of the `price` field as it reaches
`Item.validate_price`: a Python int, float, or string. -/
inductive PriceInput where
  | int (n : Int)
  | float (q : Rat)
  | str (s : String)
deriving Repr, DecidableEq

/-- `re.fullmatch` of a non-empty digit run. -/
def allDigits (cs : List Char) : Bool :=
  !cs.isEmpty && cs.all (fun c => c.isDigit)

/-- `re.fullmatch(r"\d+(\.\d+)?", s)`: digits, optionally a dot and more
digits. -/
def priceStringOk (str : String) : Bool :=
  match str.splitOn "." with
  | [a] => allDigits a.toList
  | [a, b] => allDigits a.toList && allDigits b.toList
  | _ => false

/-- Value of a digit run as a natural number. -/
def digitsToNat (cs : List Char) : Nat :=
  cs.foldl (fun acc c => 10 * acc + (c.toNat - 48)) 0

/-- Python `float(s)` on a string matching `\d+(\.\d+)?`, as an exact
rational. -/
def parsePriceString (str : String) : Rat :=
  match str.splitOn "." with
  | [a] => (digitsToNat a.toList : Rat)
  | [a, b] => (digitsToNat a.toList : Rat) +
      (digitsToNat b.toList : Rat) / ((10 : Rat) ^ b.length)
  | _ => 0

/-- `Item.validate_price` (main.py 39–63): an int or float is returned as
`float(v)` unchanged; a string must fully match `\d+(\.\d+)?` and is then
converted with `float`; anything else is rejected (everything the pydantic
boundary can hand over is covered by the three cases). -/
def validate_price : PriceInput → Except String Rat
  | .int n => .ok (n : Rat)
  | .float q => .ok q
  | .str str =>
    if priceStringOk str then
      .ok (parsePriceString str)
    else
      .error "Price must be a number using a dot as the decimal separator, for example 10 or 10.99"

/-- `create_item` (main.py 233–253), after the pydantic model has been
accepted: `INSERT INTO items (name, price) VALUES (?, ?)` — the `UNIQUE`
name constraint turns a duplicate name into `IntegrityError`, surfaced as
400 — then re-read by `lastrowid` and return. -/
def create_item (s : Store) (name : String) (price : Rat) : Except ApiError (Store × ItemRow) :=
  if s.items.any (fun i => i.name == name) then
    .error .conflictItemName
  else
    .ok ({ s with items := s.items ++ [{ id := freshId (s.items.map (fun i => i.id)), name := name, price := price }] },
         { id := freshId (s.items.map (fun i => i.id)), name := name, price := price })

/-- `POST /items` end to end: boundary validation of the price via
`Item.validate_price` (a failure is a 422 validation error), then
`create_item`. -/
def post_items (s : Store) (name : String) (p : PriceInput) : Except ApiError (Store × ItemRow) :=
  match validate_price p with
  | .error _ => .error .priceValidation
  | .ok q => create_item s name q

/-- The guard `body.id is not None and int(body.id) != int(path_id)` shared
by all three update handlers; it runs before `db_connection()` is entered. -/
def bodyIdMismatch (body : Option Int) (pid : Int) : Bool :=
  match body with
  | some bid => bid != pid
  | none => false

/-- `update_customer` (main.py 173–202): the path/body id mismatch check
runs before `db_connection()` is entered; then existence check, the
`UPDATE` (a phone collision with a different row violates the `UNIQUE`
constraint → 400), and the re-read. -/
def update_customer (s : Store) (pid : Int) (req : CustomerReq) : Except ApiError (Store × CustomerRow) :=
  if bodyIdMismatch req.id pid then
    .error .customerIdMismatch
  else
    match findCustomer s pid with
    | none => .error .customerNotFound
    | some _ =>
      if s.customers.any (fun c => c.phone == req.phone && !(c.id == pid)) then
        .error .conflictCustomerPhone
      else
        let s1 : Store := { s with customers := s.customers.map (fun c =>
          if c.id == pid then { id := c.id, name := req.name, phone := req.phone } else c) }
        match findCustomer s1 pid with
        | none => .error .internalError
        | some row => .ok (s1, row)

/-- `update_item` (main.py 272–301): mismatch check before the connection,
existence check, `UPDATE` (duplicate name → 400), re-read. -/
def update_item (s : Store) (pid : Int) (req : ItemReq) : Except ApiError (Store × ItemRow) :=
  if bodyIdMismatch req.id pid then
    .error .itemIdMismatch
  else
    match findItem s pid with
    | none => .error .itemNotFound
    | some _ =>
      if s.items.any (fun i => i.name == req.name && !(i.id == pid)) then
        .error .conflictItemName
      else
        let s1 : Store := { s with items := s.items.map (fun i =>
          if i.id == pid then { id := i.id, name := req.name, price := req.price } else i) }
        match findItem s1 pid with
        | none => .error .internalError
        | some row => .ok (s1, row)

/-- The per-item `INSERT INTO item_list (order_id, item_id) VALUES (?, ?)`
loop of the order handlers, run against the `UNIQUE(order_id, item_id)`
constraint: the first insert whose pair is already present raises
`IntegrityError` (`.error ()`), aborting the loop. -/
def insertItemListRows (rows : List ItemListRow) (oid : Int) :
    List Int → Except Unit (List ItemListRow)
  | [] => .ok rows
  | i :: rest =>
    if rows.any (fun r => r.order_id == oid && r.item_id == i) then
      .error ()
    else
      insertItemListRows (rows ++ [{ order_id := oid, item_id := i }]) oid rest

/-- The invalid-id computation of `create_order`/`update_order`:
`[i for i in item_ids if i not in existing_item_ids]` where
`existing_item_ids` comes from `SELECT id FROM items WHERE id IN (…)`. -/
def invalidItemIdsOf (s : Store) (ids : List Int) : List Int :=
  ids.filter (fun i => !(s.items.any (fun it => it.id == i)))

/-- The store after `create_order`'s two `INSERT` statements: the new order
row is appended (id `freshId`, timestamp `now`) and `item_list` is replaced
by the rows the insert loop produced. -/
def createOrderStore (s : Store) (req : OrderReq) (now : Int) (rows : List ItemListRow) : Store :=
  { s with
    orders := s.orders ++ [{ id := freshId (s.orders.map (fun o => o.id)),
                             timestamp := now, cust_id := req.cust_id, notes := req.notes }],
    item_list := rows }

/-- The write phase of `create_order` (main.py 369–396), entered only after
all validations pass: insert the order row (`now` is the server clock that
fills the `timestamp DEFAULT CURRENT_TIMESTAMP` column), insert one
association row per element of `req.items`, re-read the join and shape.  A
constraint violation in the insert loop is caught by the catch-all
`except Exception` as HTTP 500, rolling everything back. -/
def create_order_write (s : Store) (req : OrderReq) (now : Int) : Except ApiError (Store × OrderOut) :=
  match insertItemListRows s.item_list (freshId (s.orders.map (fun o => o.id))) req.items with
  | .error _ => .error .internalError
  | .ok newRows =>
    match orderJoinCustomer (createOrderStore s req now newRows) (freshId (s.orders.map (fun o => o.id))) with
    | none => .error .internalError
    | some row =>
      match format_order_rows_to_dict (createOrderStore s req now newRows) [row] with
      | [] => .error .internalError
      | o :: _ => .ok (createOrderStore s req now newRows, o)

/-- `create_order` (main.py 332–401).  Validation order: customer
existence, non-empty item list, batch item-id check (all invalid ids
listed); then the write phase. -/
def create_order (s : Store) (req : OrderReq) (now : Int) : Except ApiError (Store × OrderOut) :=
  match findCustomer s req.cust_id with
  | none => .error .customerNotFound
  | some _ =>
    if req.items.isEmpty then
      .error .emptyOrderItems
    else
      if !(invalidItemIdsOf s req.items).isEmpty then
        .error (.invalidItemIds (invalidItemIdsOf s req.items))
      else
        create_order_write s req now

/-- `get_order` (main.py 404–422): run the order/customer join; `fetchone`
empty means 404 before any shaping; otherwise shape the single row (the
trailing `len(order) > 0` re-check is kept). -/
def get_order (s : Store) (oid : Int) : Except ApiError (Store × OrderOut) :=
  match orderJoinCustomer s oid with
  | none => .error .orderNotFound
  | some row =>
    match format_order_rows_to_dict s [row] with
    | [] => .error .orderNotFound
    | o :: _ => .ok (s, o)

/-- The store after `update_order`'s `UPDATE` and item-list rewrite: the
order row's `cust_id`/`notes` are overwritten and `item_list` is replaced by
the rows the delete-then-insert sequence produced. -/
def updateOrderStore (s : Store) (pid : Int) (req : OrderReq) (rows : List ItemListRow) : Store :=
  { s with
    orders := s.orders.map (fun o =>
      if o.id == pid then { o with cust_id := req.cust_id, notes := req.notes } else o),
    item_list := rows }

/-- The write phase of `update_order` (main.py 471–500), entered only after
all validations pass: overwrite `cust_id`/`notes`, delete the order's whole
association set (`DELETE FROM item_list WHERE order_id = ?`), insert the
fresh set one row per element (a duplicate pair violates the `UNIQUE`
constraint → 500 and rollback), re-read the join and shape. -/
def update_order_write (s : Store) (pid : Int) (req : OrderReq) : Except ApiError (Store × OrderOut) :=
  match insertItemListRows (s.item_list.filter (fun il => !(il.order_id == pid))) pid req.items with
  | .error _ => .error .internalError
  | .ok newRows =>
    match orderJoinCustomer (updateOrderStore s pid req newRows) pid with
    | none => .error .internalError
    | some row =>
      match format_order_rows_to_dict (updateOrderStore s pid req newRows) [row] with
      | [] => .error .internalError
      | o :: _ => .ok (updateOrderStore s pid req newRows, o)

/-- `update_order` (main.py 425–504): path/body id mismatch check before
the connection; then order existence, customer existence, non-empty item
list, batch item-id check; then the write phase. -/
def update_order (s : Store) (pid : Int) (req : OrderReq) : Except ApiError (Store × OrderOut) :=
  if bodyIdMismatch req.id pid then
    .error .orderIdMismatch
  else
    match findOrder s pid with
    | none => .error .orderNotFound
    | some _ =>
      match findCustomer s req.cust_id with
      | none => .error .customerNotFound
      | some _ =>
        if req.items.isEmpty then
          .error .emptyOrderItems
        else
          if !(invalidItemIdsOf s req.items).isEmpty then
            .error (.invalidItemIds (invalidItemIdsOf s req.items))
          else
            update_order_write s pid req

/-- `delete_order` (main.py 507–527): existence check, delete the
association rows, delete the order row. -/
def delete_order (s : Store) (oid : Int) : Except ApiError (Store × String) :=
  match findOrder s oid with
  | none => .error .orderNotFound
  | some _ =>
    .ok ({ s with
            item_list := s.item_list.filter (fun il => !(il.order_id == oid)),
            orders := s.orders.filter (fun o => !(o.id == oid)) },
         "Order deleted successfully")

/-- The validation phase of order update in the order the code actually
performs it (this is the C4 claim amended: the path/body id-mismatch check
comes first, before the order-existence check; the rest keep the claimed
order): id mismatch → `BadRequest`; missing order → `NotFound`; missing
customer → `NotFound`; empty item list → `BadRequest`; any invalid item id
→ `NotFound` listing all invalid ids. -/
def update_order_spec_error (s : Store) (pid : Int) (req : OrderReq) : Option ApiError :=
  if bodyIdMismatch req.id pid then some .orderIdMismatch
  else if (findOrder s pid).isNone then some .orderNotFound
  else if (findCustomer s req.cust_id).isNone then some .customerNotFound
  else if req.items.isEmpty then some .emptyOrderItems
  else if !(invalidItemIdsOf s req.items).isEmpty then
    some (.invalidItemIds (invalidItemIdsOf s req.items))
  else none

/-- A concrete store for exercising the deletion guards: customer 1 owns
order 1 (which references item 1); customer 2 and item 2 are unreferenced. -/
def guardStore : Store :=
  { customers := [{ id := 1, name := "A", phone := "111-111-1111" },
                  { id := 2, name := "B", phone := "222-222-2222" }],
    items := [{ id := 1, name := "Tea", price := 3 },
              { id := 2, name := "Coffee", price := 4 }],
    orders := [{ id := 1, timestamp := 100, cust_id := 1, notes := none }],
    item_list := [{ order_id := 1, item_id := 1 }] }

/-! ## Helper lemmas about the association-insert loop -/

/-- A successful run of the insert loop appends exactly one row per element
of the input list, in order, verbatim. -/
theorem insertItemListRows_ok_eq (oid : Int) :
    ∀ (l : List Int) (rows res : List ItemListRow),
      insertItemListRows rows oid l = .ok res →
      res = rows ++ l.map (fun i => { order_id := oid, item_id := i }) := by
  intro l
  induction l with
  | nil =>
    intro rows res h
    simp only [insertItemListRows] at h
    cases h
    simp
  | cons i rest ih =>
    intro rows res h
    simp only [insertItemListRows] at h
    by_cases hdup : rows.any (fun r => r.order_id == oid && r.item_id == i) = true
    · rw [if_pos hdup] at h
      exact Except.noConfusion h
    · rw [if_neg hdup] at h
      have := ih (rows ++ [{ order_id := oid, item_id := i }]) res h
      simpa [List.append_assoc] using this

/-- If the pair `(oid, i)` is already present and `i` occurs in the input
list, the insert loop hits the uniqueness constraint and fails. -/
theorem insertItemListRows_mem_error (oid : Int) :
    ∀ (l : List Int) (rows : List ItemListRow) (i : Int),
      ({ order_id := oid, item_id := i } : ItemListRow) ∈ rows → i ∈ l →
      insertItemListRows rows oid l = .error () := by
  intro l
  induction l with
  | nil =>
    intro rows i _ hil
    exact absurd hil (List.not_mem_nil i)
  | cons j rest ih =>
    intro rows i hrow hil
    simp only [insertItemListRows]
    by_cases hdup : rows.any (fun r => r.order_id == oid && r.item_id == j) = true
    · rw [if_pos hdup]
    · rw [if_neg hdup]
      rcases List.mem_cons.mp hil with hij | hmem
      · exfalso
        apply hdup
        refine List.any_eq_true.mpr ⟨_, hrow, ?_⟩
        subst hij
        simp
      · exact ih (rows ++ [{ order_id := oid, item_id := j }]) i
          (List.mem_append_left _ hrow) hmem

/-- If the input list contains a duplicate, the insert loop always fails
(whatever rows are already present): the second occurrence collides with
the row inserted for the first. -/
theorem insertItemListRows_dup_error (oid : Int) :
    ∀ (l : List Int) (rows : List ItemListRow), ¬ l.Nodup →
      insertItemListRows rows oid l = .error () := by
  intro l
  induction l with
  | nil =>
    intro rows h
    exact absurd List.nodup_nil h
  | cons i rest ih =>
    intro rows h
    simp only [insertItemListRows]
    by_cases hdup : rows.any (fun r => r.order_id == oid && r.item_id == i) = true
    · rw [if_pos hdup]
    · rw [if_neg hdup]
      by_cases hmem : i ∈ rest
      · exact insertItemListRows_mem_error oid rest _ i
          (List.mem_append_right _ (List.mem_singleton.mpr rfl)) hmem
      · apply ih
        intro hnd
        exact h (List.nodup_cons.mpr ⟨hmem, hnd⟩)

/-! ## Claims -/

/-- **C3**: order create validates in this order, before any write: first
the customer is resolved (absent → `NotFound` "Customer not found",
regardless of the item list), second an empty item list fails `BadRequest`
"Order must contain at least one item".  An error result means the
transaction was rolled back, so nothing is written. -/
theorem create_order_pre_write_validation :
    (∀ (s : Store) (req : OrderReq) (now : Int),
        findCustomer s req.cust_id = none →
        create_order s req now = .error .customerNotFound ∧
        ApiError.status .customerNotFound = 404) ∧
    (∀ (s : Store) (req : OrderReq) (now : Int) (c : CustomerRow),
        findCustomer s req.cust_id = some c → req.items = [] →
        create_order s req now = .error .emptyOrderItems ∧
        ApiError.status .emptyOrderItems = 400) := by
  constructor
  · intro s req now h
    exact ⟨by simp [create_order, h], rfl⟩
  · intro s req now c h hempty
    exact ⟨by simp [create_order, h, hempty], rfl⟩

/-- Witness for C3: on a store with no customers the create fails 404; on a
store containing customer 1 an empty item list fails 400. -/
theorem create_order_pre_write_validation_witness :
    create_order { customers := [], items := [], orders := [], item_list := [] }
      { id := none, cust_id := 1, notes := none, items := [1] } 0 =
      .error .customerNotFound ∧
    create_order { customers := [{ id := 1, name := "A", phone := "111-111-1111" }],
                   items := [], orders := [], item_list := [] }
      { id := none, cust_id := 1, notes := none, items := [] } 0 =
      .error .emptyOrderItems :=
  ⟨(create_order_pre_write_validation.1
      { customers := [], items := [], orders := [], item_list := [] }
      { id := none, cust_id := 1, notes := none, items := [1] } 0 rfl).1,
   (create_order_pre_write_validation.2
      { customers := [{ id := 1, name := "A", phone := "111-111-1111" }],
        items := [], orders := [], item_list := [] }
      { id := none, cust_id := 1, notes := none, items := [] } 0
      { id := 1, name := "A", phone := "111-111-1111" } rfl rfl).1⟩

/-- **C7**: order Read checks existence strictly before shaping: if no
order row with the id exists the result is `NotFound` (no empty-shaped
result is produced); otherwise the order is returned joined with its
customer and its item list. -/
theorem get_order_checks_existence :
    (∀ (s : Store) (oid : Int), findOrder s oid = none →
        get_order s oid = .error .orderNotFound) ∧
    (∀ (s : Store) (oid : Int) (o : OrderRow) (c : CustomerRow),
        findOrder s oid = some o → findCustomer s o.cust_id = some c →
        get_order s oid = .ok (s,
          { id := o.id, timestamp := o.timestamp, name := c.name,
            phone := c.phone, notes := o.notes,
            items := get_order_items s o.id })) := by
  constructor
  · intro s oid h
    simp only [get_order, orderJoinCustomer, h, Option.bind]
  · intro s oid o c ho hc
    simp only [get_order, orderJoinCustomer, ho, hc, Option.bind, Option.map,
      format_order_rows_to_dict, List.map]

/-- Witness for C7: a store without order 7 yields 404; a store with order
1 (customer 1, one Tea item) yields the shaped order. -/
theorem get_order_checks_existence_witness :
    get_order { customers := [{ id := 1, name := "A", phone := "111-111-1111" }],
                items := [], orders := [], item_list := [] } 7 =
      .error .orderNotFound ∧
    get_order { customers := [{ id := 1, name := "A", phone := "111-111-1111" }],
                items := [{ id := 1, name := "Tea", price := 3 }],
                orders := [{ id := 1, timestamp := 100, cust_id := 1, notes := none }],
                item_list := [{ order_id := 1, item_id := 1 }] } 1 =
      .ok ({ customers := [{ id := 1, name := "A", phone := "111-111-1111" }],
             items := [{ id := 1, name := "Tea", price := 3 }],
             orders := [{ id := 1, timestamp := 100, cust_id := 1, notes := none }],
             item_list := [{ order_id := 1, item_id := 1 }] },
           { id := 1, timestamp := 100, name := "A", phone := "111-111-1111",
             notes := none, items := [{ name := "Tea", price := 3 }] }) := by
  constructor
  · exact get_order_checks_existence.1 _ 7 rfl
  · have h := get_order_checks_existence.2
      { customers := [{ id := 1, name := "A", phone := "111-111-1111" }],
        items := [{ id := 1, name := "Tea", price := 3 }],
        orders := [{ id := 1, timestamp := 100, cust_id := 1, notes := none }],
        item_list := [{ order_id := 1, item_id := 1 }] } 1
      { id := 1, timestamp := 100, cust_id := 1, notes := none }
      { id := 1, name := "A", phone := "111-111-1111" } rfl rfl
    simpa [get_order_items] using h

/-- **C8**: the shaping/read step has no side effects and is idempotent:
a successful `GET /orders/{id}` leaves the store exactly as it was, and a
second call against that store returns the identical result. -/
theorem get_order_idempotent (s : Store) (oid : Int) (s' : Store) (r : OrderOut)
    (h : get_order s oid = .ok (s', r)) :
    s' = s ∧ get_order s' oid = .ok (s', r) := by
  have hs : s' = s := by
    revert h
    simp only [get_order]
    cases hj : orderJoinCustomer s oid with
    | none => intro h; exact Except.noConfusion h
    | some row =>
      simp only [format_order_rows_to_dict, List.map]
      intro h
      cases h
      rfl
  subst hs
  exact ⟨rfl, h⟩

/-- Witness for C8: reading order 1 twice from the same store returns the
same shaped result and the same store. -/
theorem get_order_idempotent_witness :
    ({ customers := [{ id := 1, name := "A", phone := "111-111-1111" }],
       items := [{ id := 1, name := "Tea", price := 3 }],
       orders := [{ id := 1, timestamp := 100, cust_id := 1, notes := none }],
       item_list := [{ order_id := 1, item_id := 1 }] } : Store) =
      { customers := [{ id := 1, name := "A", phone := "111-111-1111" }],
        items := [{ id := 1, name := "Tea", price := 3 }],
        orders := [{ id := 1, timestamp := 100, cust_id := 1, notes := none }],
        item_list := [{ order_id := 1, item_id := 1 }] } ∧
    get_order { customers := [{ id := 1, name := "A", phone := "111-111-1111" }],
                items := [{ id := 1, name := "Tea", price := 3 }],
                orders := [{ id := 1, timestamp := 100, cust_id := 1, notes := none }],
                item_list := [{ order_id := 1, item_id := 1 }] } 1 =
      .ok ({ customers := [{ id := 1, name := "A", phone := "111-111-1111" }],
             items := [{ id := 1, name := "Tea", price := 3 }],
             orders := [{ id := 1, timestamp := 100, cust_id := 1, notes := none }],
             item_list := [{ order_id := 1, item_id := 1 }] },
           { id := 1, timestamp := 100, name := "A", phone := "111-111-1111",
             notes := none, items := [{ name := "Tea", price := 3 }] }) :=
  get_order_idempotent _ 1 _ _ rfl

/-- **C10**: every update endpoint (customer, item, order) rejects a body
id that differs from the path id with `BadRequest` before the database
connection is opened: the outcome is the mismatch error for *every* store,
so no table is read or changed and the store is untouched (an error result
performs no write). -/
theorem update_id_mismatch_before_connection :
    (∀ (s : Store) (pid bid : Int) (name phone : String), bid ≠ pid →
        update_customer s pid { id := some bid, name := name, phone := phone } =
          .error .customerIdMismatch) ∧
    (∀ (s : Store) (pid bid : Int) (name : String) (price : Rat), bid ≠ pid →
        update_item s pid { id := some bid, name := name, price := price } =
          .error .itemIdMismatch) ∧
    (∀ (s : Store) (pid bid cust : Int) (notes : Option String) (items : List Int),
        bid ≠ pid →
        update_order s pid { id := some bid, cust_id := cust, notes := notes, items := items } =
          .error .orderIdMismatch) := by
  refine ⟨?_, ?_, ?_⟩
  · intro s pid bid name phone hne
    simp [update_customer, bodyIdMismatch, hne]
  · intro s pid bid name price hne
    simp [update_item, bodyIdMismatch, hne]
  · intro s pid bid cust notes items hne
    simp [update_order, bodyIdMismatch, hne]

/-- Witness for C10: with path id 1 and body id 2, all three update
endpoints fail with their mismatch error on a concrete store. -/
theorem update_id_mismatch_before_connection_witness :
    update_customer { customers := [], items := [], orders := [], item_list := [] } 1
      { id := some 2, name := "A", phone := "111-111-1111" } =
      .error .customerIdMismatch ∧
    update_item { customers := [], items := [], orders := [], item_list := [] } 1
      { id := some 2, name := "Tea", price := 3 } =
      .error .itemIdMismatch ∧
    update_order { customers := [], items := [], orders := [], item_list := [] } 1
      { id := some 2, cust_id := 1, notes := none, items := [1] } =
      .error .orderIdMismatch :=
  ⟨update_id_mismatch_before_connection.1 _ 1 2 _ _ (by decide),
   update_id_mismatch_before_connection.2.1 _ 1 2 _ _ (by decide),
   update_id_mismatch_before_connection.2.2 _ 1 2 _ _ _ (by decide)⟩

/-- A successful `create_order_write` produces exactly the store with the new
order row appended and the association rows appended verbatim. -/
theorem create_order_write_ok_store (s : Store) (req : OrderReq) (now : Int)
    (s' : Store) (out : OrderOut)
    (h : create_order_write s req now = .ok (s', out)) :
    s' = createOrderStore s req now (s.item_list ++ req.items.map (fun i =>
      { order_id := freshId (s.orders.map (fun o => o.id)), item_id := i })) := by
  simp only [create_order_write] at h
  split at h
  · exact Except.noConfusion h
  · rename_i newRows hins
    have hrows := insertItemListRows_ok_eq _ _ _ _ hins
    subst hrows
    split at h
    · exact Except.noConfusion h
    · simp only [format_order_rows_to_dict, List.map] at h
      cases h
      rfl

/-- A successful `update_order_write` produces exactly the store whose
association rows are: every row of other orders, followed by one fresh row
per element of the new item list. -/
theorem update_order_write_ok_store (s : Store) (pid : Int) (req : OrderReq)
    (s' : Store) (out : OrderOut)
    (h : update_order_write s pid req = .ok (s', out)) :
    s' = updateOrderStore s pid req
      (s.item_list.filter (fun il => !(il.order_id == pid)) ++
        req.items.map (fun i => { order_id := pid, item_id := i })) := by
  simp only [update_order_write] at h
  split at h
  · exact Except.noConfusion h
  · rename_i newRows hins
    have hrows := insertItemListRows_ok_eq _ _ _ _ hins
    subst hrows
    split at h
    · exact Except.noConfusion h
    · simp only [format_order_rows_to_dict, List.map] at h
      cases h
      rfl

/-- A successful `create_order` went through the write phase. -/
theorem create_order_ok_write (s : Store) (req : OrderReq) (now : Int)
    (s' : Store) (out : OrderOut)
    (h : create_order s req now = .ok (s', out)) :
    create_order_write s req now = .ok (s', out) := by
  simp only [create_order] at h
  split at h
  · exact Except.noConfusion h
  · split at h
    · exact Except.noConfusion h
    · split at h
      · exact Except.noConfusion h
      · exact h

/-- A successful `update_order` went through the write phase. -/
theorem update_order_ok_write (s : Store) (pid : Int) (req : OrderReq)
    (s' : Store) (out : OrderOut)
    (h : update_order s pid req = .ok (s', out)) :
    update_order_write s pid req = .ok (s', out) := by
  simp only [update_order] at h
  split at h
  · exact Except.noConfusion h
  · split at h
    · exact Except.noConfusion h
    · split at h
      · exact Except.noConfusion h
      · split at h
        · exact Except.noConfusion h
        · split at h
          · exact Except.noConfusion h
          · exact h

/-- **C1**: order creation is all-or-nothing.  If the customer resolves but
at least one requested item id does not exist in the items table, the
operation fails `NotFound` (404) carrying the list of *every* invalid
requested id (not just the first), and it never returns a success, so no
order row and no association row is persisted — the transaction is rolled
back and the store is exactly as before. -/
theorem create_order_all_or_nothing (s : Store) (req : OrderReq) (now : Int)
    (c : CustomerRow) (hc : findCustomer s req.cust_id = some c)
    (i : Int) (hi : i ∈ req.items) (hbad : ∀ it ∈ s.items, it.id ≠ i) :
    create_order s req now = .error (.invalidItemIds (invalidItemIdsOf s req.items)) ∧
    (∀ j ∈ req.items, (∀ it ∈ s.items, it.id ≠ j) → j ∈ invalidItemIdsOf s req.items) ∧
    ApiError.status (.invalidItemIds (invalidItemIdsOf s req.items)) = 404 ∧
    ∀ (s' : Store) (out : OrderOut), create_order s req now ≠ .ok (s', out) := by
  have hmem_gen : ∀ j ∈ req.items, (∀ it ∈ s.items, it.id ≠ j) →
      j ∈ invalidItemIdsOf s req.items := by
    intro j hj hbadj
    simp only [invalidItemIdsOf]
    refine List.mem_filter.mpr ⟨hj, ?_⟩
    have hany : s.items.any (fun it => it.id == j) = false := by
      rw [List.any_eq_false]
      intro it hit
      simp [hbadj it hit]
    simp [hany]
  have hmem := hmem_gen i hi hbad
  have hinvne : (invalidItemIdsOf s req.items).isEmpty = false := by
    cases hinv : invalidItemIdsOf s req.items with
    | nil => rw [hinv] at hmem; exact absurd hmem (List.not_mem_nil i)
    | cons a l => rfl
  have hitems : req.items.isEmpty = false := by
    cases hl : req.items with
    | nil => rw [hl] at hi; exact absurd hi (List.not_mem_nil i)
    | cons a l => rfl
  have heq : create_order s req now = .error (.invalidItemIds (invalidItemIdsOf s req.items)) := by
    simp [create_order, hc, hitems, hinvne]
  refine ⟨heq, hmem_gen, rfl, ?_⟩
  intro s' out hok
  rw [heq] at hok
  exact Except.noConfusion hok

/-- Witness for C1: requesting items `[1, 5, 7]` when only item 1 exists
fails with the full invalid list `[5, 7]`. -/
theorem create_order_all_or_nothing_witness :
    create_order { customers := [{ id := 1, name := "A", phone := "111-111-1111" }],
                   items := [{ id := 1, name := "Tea", price := 3 }],
                   orders := [], item_list := [] }
      { id := none, cust_id := 1, notes := none, items := [1, 5, 7] } 0 =
      .error (.invalidItemIds [5, 7]) :=
  (create_order_all_or_nothing
    { customers := [{ id := 1, name := "A", phone := "111-111-1111" }],
      items := [{ id := 1, name := "Tea", price := 3 }],
      orders := [], item_list := [] }
    { id := none, cust_id := 1, notes := none, items := [1, 5, 7] } 0
    { id := 1, name := "A", phone := "111-111-1111" } rfl
    5 (by decide) (by decide)).1

/-- **C2**: a successful order update fully replaces the association set:
afterwards the rows of the updated order are exactly one fresh row per id of
the new item list (in order), and the rows of every other order are
untouched. -/
theorem update_order_full_replace (s : Store) (pid : Int) (req : OrderReq)
    (s' : Store) (out : OrderOut)
    (h : update_order s pid req = .ok (s', out)) :
    s'.item_list.filter (fun r => r.order_id == pid) =
      req.items.map (fun i => { order_id := pid, item_id := i }) ∧
    s'.item_list.filter (fun r => !(r.order_id == pid)) =
      s.item_list.filter (fun r => !(r.order_id == pid)) := by
  have hw := update_order_ok_write s pid req s' out h
  have hst := update_order_write_ok_store s pid req s' out hw
  subst hst
  simp only [updateOrderStore]
  constructor
  · rw [List.filter_append]
    have h1 : (s.item_list.filter (fun il => !(il.order_id == pid))).filter
        (fun r => r.order_id == pid) = [] := by
      rw [List.filter_eq_nil_iff]
      intro a ha
      have hmem := (List.mem_filter.mp ha).2
      simp only [Bool.not_eq_true'] at hmem
      simp [hmem]
    have h2 : (req.items.map (fun i => ({ order_id := pid, item_id := i } : ItemListRow))).filter
        (fun r => r.order_id == pid) =
        req.items.map (fun i => ({ order_id := pid, item_id := i } : ItemListRow)) := by
      rw [List.filter_eq_self]
      intro a ha
      obtain ⟨j, hj, rfl⟩ := List.mem_map.mp ha
      simp
    rw [h1, h2, List.nil_append]
  · rw [List.filter_append]
    have h3 : (s.item_list.filter (fun il => !(il.order_id == pid))).filter
        (fun r => !(r.order_id == pid)) =
        s.item_list.filter (fun r => !(r.order_id == pid)) := by
      rw [List.filter_eq_self]
      intro a ha
      exact (List.mem_filter.mp ha).2
    have h4 : (req.items.map (fun i => ({ order_id := pid, item_id := i } : ItemListRow))).filter
        (fun r => !(r.order_id == pid)) = [] := by
      rw [List.filter_eq_nil_iff]
      intro a ha
      obtain ⟨j, hj, rfl⟩ := List.mem_map.mp ha
      simp
    rw [h3, h4, List.append_nil]

/-- Witness for C2: updating order 1 from items `[1, 2]` to `[3]` leaves
exactly one association row for order 1, pointing at item 3. -/
theorem update_order_full_replace_witness :
    ([{ order_id := 1, item_id := 3 }] : List ItemListRow).filter (fun r => r.order_id == 1) =
      [{ order_id := 1, item_id := 3 }] ∧
    ([{ order_id := 1, item_id := 3 }] : List ItemListRow).filter (fun r => !(r.order_id == 1)) =
      ([{ order_id := 1, item_id := 1 }, { order_id := 1, item_id := 2 }] : List ItemListRow).filter
        (fun r => !(r.order_id == 1)) :=
  update_order_full_replace
    { customers := [{ id := 1, name := "A", phone := "111-111-1111" }],
      items := [{ id := 1, name := "Tea", price := 3 },
                { id := 2, name := "Coffee", price := 4 },
                { id := 3, name := "Milk", price := 5 }],
      orders := [{ id := 1, timestamp := 100, cust_id := 1, notes := none }],
      item_list := [{ order_id := 1, item_id := 1 }, { order_id := 1, item_id := 2 }] }
    1 { id := none, cust_id := 1, notes := none, items := [3] }
    { customers := [{ id := 1, name := "A", phone := "111-111-1111" }],
      items := [{ id := 1, name := "Tea", price := 3 },
                { id := 2, name := "Coffee", price := 4 },
                { id := 3, name := "Milk", price := 5 }],
      orders := [{ id := 1, timestamp := 100, cust_id := 1, notes := none }],
      item_list := [{ order_id := 1, item_id := 3 }] }
    { id := 1, timestamp := 100, name := "A", phone := "111-111-1111",
      notes := none, items := [{ name := "Milk", price := 5 }] }
    rfl

/-- **C5**: the create-order insert loop stores one association row per
occurrence of an item id, verbatim — so a successful create appends exactly
`req.items` as rows of the new order — and when the input repeats an id,
the storage layer's `UNIQUE(order_id, item_id)` constraint rejects the
second row, which the handler surfaces as a 500 error (nothing persists:
the transaction rolls back). -/
theorem create_order_association_rows :
    (∀ (s : Store) (req : OrderReq) (now : Int) (s' : Store) (out : OrderOut),
        create_order s req now = .ok (s', out) →
        s'.item_list = s.item_list ++ req.items.map (fun i =>
          { order_id := freshId (s.orders.map (fun o => o.id)), item_id := i })) ∧
    (∀ (s : Store) (req : OrderReq) (now : Int) (c : CustomerRow),
        findCustomer s req.cust_id = some c →
        invalidItemIdsOf s req.items = [] →
        ¬ req.items.Nodup →
        create_order s req now = .error .internalError ∧
        ApiError.status .internalError = 500) := by
  constructor
  · intro s req now s' out h
    have hw := create_order_ok_write s req now s' out h
    have hst := create_order_write_ok_store s req now s' out hw
    subst hst
    rfl
  · intro s req now c hc hinv hdup
    refine ⟨?_, rfl⟩
    have hitems : req.items.isEmpty = false := by
      cases hl : req.items with
      | nil => rw [hl] at hdup; exact absurd List.nodup_nil hdup
      | cons a l => rfl
    have hins := insertItemListRows_dup_error
      (freshId (s.orders.map (fun o => o.id))) req.items s.item_list hdup
    simp [create_order, hc, hitems, hinv, create_order_write, hins]

/-- Witness for C5: creating an order with items `[1, 2]` appends the two
rows verbatim, and creating one with items `[1, 1]` is rejected by the
uniqueness constraint with a 500. -/
theorem create_order_association_rows_witness :
    ([{ order_id := 1, item_id := 1 }, { order_id := 1, item_id := 2 }] : List ItemListRow) =
      [] ++ [{ order_id := 1, item_id := 1 }, { order_id := 1, item_id := 2 }] ∧
    create_order { customers := [{ id := 1, name := "A", phone := "111-111-1111" }],
                   items := [{ id := 1, name := "Tea", price := 3 },
                             { id := 2, name := "Coffee", price := 4 }],
                   orders := [], item_list := [] }
      { id := none, cust_id := 1, notes := none, items := [1, 1] } 0 =
      .error .internalError :=
  ⟨create_order_association_rows.1
    { customers := [{ id := 1, name := "A", phone := "111-111-1111" }],
      items := [{ id := 1, name := "Tea", price := 3 },
                { id := 2, name := "Coffee", price := 4 }],
      orders := [], item_list := [] }
    { id := none, cust_id := 1, notes := none, items := [1, 2] } 0
    { customers := [{ id := 1, name := "A", phone := "111-111-1111" }],
      items := [{ id := 1, name := "Tea", price := 3 },
                { id := 2, name := "Coffee", price := 4 }],
      orders := [{ id := 1, timestamp := 0, cust_id := 1, notes := none }],
      item_list := [{ order_id := 1, item_id := 1 }, { order_id := 1, item_id := 2 }] }
    { id := 1, timestamp := 0, name := "A", phone := "111-111-1111",
      notes := none, items := [{ name := "Tea", price := 3 }, { name := "Coffee", price := 4 }] }
    rfl,
   (create_order_association_rows.2
    { customers := [{ id := 1, name := "A", phone := "111-111-1111" }],
      items := [{ id := 1, name := "Tea", price := 3 },
                { id := 2, name := "Coffee", price := 4 }],
      orders := [], item_list := [] }
    { id := none, cust_id := 1, notes := none, items := [1, 1] } 0
    { id := 1, name := "A", phone := "111-111-1111" } rfl rfl (by decide)).1⟩

/-- **C4 counterexample**: against the empty store (so order 1 does not
exist) with a body id 2 mismatching the path id 1, `update_order` answers
the 400 id-mismatch error, not `NotFound` — the mismatch check runs first,
so the claim's "the result is NotFound" is false at this input. -/
theorem update_order_mismatch_beats_missing_order :
    update_order { customers := [], items := [], orders := [], item_list := [] } 1
      { id := some 2, cust_id := 1, notes := none, items := [1] } =
      .error .orderIdMismatch ∧
    findOrder { customers := [], items := [], orders := [], item_list := [] } 1 = none ∧
    ApiError.status .orderIdMismatch = 400 ∧
    update_order { customers := [], items := [], orders := [], item_list := [] } 1
      { id := some 2, cust_id := 1, notes := none, items := [1] } ≠
      .error .orderNotFound := by
  refine ⟨rfl, rfl, rfl, fun h => ?_⟩
  have h' : (Except.error ApiError.orderIdMismatch : Except ApiError (Store × OrderOut)) =
      .error .orderNotFound := h
  exact ApiError.noConfusion (Except.error.inj h')

/-- **C4 (amended)**: whenever the validation phase (in the real check
order: mismatch, missing order, missing customer, empty items, invalid
item ids — all listed) determines an error, `update_order` fails with
exactly that error. -/
theorem update_order_validation_order (s : Store) (pid : Int) (req : OrderReq) (e : ApiError)
    (h : update_order_spec_error s pid req = some e) :
    update_order s pid req = .error e := by
  simp only [update_order_spec_error] at h
  simp only [update_order]
  by_cases h1 : bodyIdMismatch req.id pid = true
  · rw [if_pos h1] at h
    rw [if_pos h1]
    cases h
    rfl
  · rw [if_neg h1] at h
    rw [if_neg h1]
    cases h2 : findOrder s pid with
    | none =>
      simp only [h2, Option.isNone_none, if_true] at h
      cases h
      rfl
    | some o =>
      simp only [h2, Option.isNone_some, Bool.false_eq_true, if_false] at h
      cases h3 : findCustomer s req.cust_id with
      | none =>
        simp only [h3, Option.isNone_none, if_true] at h
        cases h
        rfl
      | some c =>
        simp only [h3, Option.isNone_some, Bool.false_eq_true, if_false] at h
        by_cases h4 : req.items.isEmpty = true
        · rw [if_pos h4] at h
          rw [if_pos h4]
          cases h
          rfl
        · rw [if_neg h4] at h
          rw [if_neg h4]
          by_cases h5 : (!(invalidItemIdsOf s req.items).isEmpty) = true
          · rw [if_pos h5] at h
            rw [if_pos h5]
            cases h
            rfl
          · rw [if_neg h5] at h
            exact Option.noConfusion h

/-- Witness for C4 (amended): a mismatching body id on a store without the
order yields the mismatch error, as the first check in the amended order
dictates. -/
theorem update_order_validation_order_witness :
    update_order { customers := [], items := [], orders := [], item_list := [] } 1
      { id := some 3, cust_id := 1, notes := none, items := [] } =
      .error .orderIdMismatch :=
  update_order_validation_order
    { customers := [], items := [], orders := [], item_list := [] } 1
    { id := some 3, cust_id := 1, notes := none, items := [] }
    .orderIdMismatch rfl

/-- **C6**: referential-integrity deletion guards.  Deleting a customer
referenced by ≥1 order fails `BadRequest` (the customer row stays: an error
rolls the transaction back); deleting an item referenced by ≥1 association
row fails `BadRequest`; deleting an existing customer with zero orders (or
an existing item with zero references) succeeds with the success message
and a subsequent Read of that id answers `NotFound`. -/
theorem delete_referential_guards :
    (∀ (s : Store) (cid : Int) (c : CustomerRow), findCustomer s cid = some c →
        s.orders.any (fun o => o.cust_id == cid) = true →
        delete_customer s cid = .error .customerHasOrders ∧
        ApiError.status .customerHasOrders = 400) ∧
    (∀ (s : Store) (cid : Int) (c : CustomerRow), findCustomer s cid = some c →
        s.orders.any (fun o => o.cust_id == cid) = false →
        delete_customer s cid =
          .ok ({ s with customers := s.customers.filter (fun x => !(x.id == cid)) },
               "Customer deleted successfully") ∧
        get_customer { s with customers := s.customers.filter (fun x => !(x.id == cid)) } cid =
          .error .customerNotFound) ∧
    (∀ (s : Store) (iid : Int) (it : ItemRow), findItem s iid = some it →
        s.item_list.any (fun il => il.item_id == iid) = true →
        delete_item s iid = .error .itemInUse ∧
        ApiError.status .itemInUse = 400) ∧
    (∀ (s : Store) (iid : Int) (it : ItemRow), findItem s iid = some it →
        s.item_list.any (fun il => il.item_id == iid) = false →
        delete_item s iid =
          .ok ({ s with items := s.items.filter (fun x => !(x.id == iid)) },
               "Item deleted successfully") ∧
        get_item { s with items := s.items.filter (fun x => !(x.id == iid)) } iid =
          .error .itemNotFound) := by
  refine ⟨?_, ?_, ?_, ?_⟩
  · intro s cid c hc ho
    exact ⟨by simp [delete_customer, hc, ho], rfl⟩
  · intro s cid c hc ho
    constructor
    · simp [delete_customer, hc, ho]
    · have hnone : (s.customers.filter (fun x => !(x.id == cid))).find?
          (fun x => x.id == cid) = none := by
        rw [List.find?_eq_none]
        intro x hx
        have hx2 := (List.mem_filter.mp hx).2
        simp only [Bool.not_eq_true'] at hx2
        simp [hx2]
      simp [get_customer, findCustomer, hnone]
  · intro s iid it hit ho
    exact ⟨by simp [delete_item, hit, ho], rfl⟩
  · intro s iid it hit ho
    constructor
    · simp [delete_item, hit, ho]
    · have hnone : (s.items.filter (fun x => !(x.id == iid))).find?
          (fun x => x.id == iid) = none := by
        rw [List.find?_eq_none]
        intro x hx
        have hx2 := (List.mem_filter.mp hx).2
        simp only [Bool.not_eq_true'] at hx2
        simp [hx2]
      simp [get_item, findItem, hnone]

/-- Witness for C6 on `guardStore`: customer 1 (who owns order 1) cannot be
deleted; customer 2 (no orders) is deleted and then reads as `NotFound`;
item 1 (referenced by order 1) cannot be deleted; item 2 (unreferenced) is
deleted and then reads as `NotFound`. -/
theorem delete_referential_guards_witness :
    delete_customer guardStore 1 = .error .customerHasOrders ∧
    (delete_customer guardStore 2 =
      .ok ({ guardStore with customers := guardStore.customers.filter (fun x => !(x.id == 2)) },
           "Customer deleted successfully") ∧
     get_customer { guardStore with customers := guardStore.customers.filter (fun x => !(x.id == 2)) } 2 =
      .error .customerNotFound) ∧
    delete_item guardStore 1 = .error .itemInUse ∧
    (delete_item guardStore 2 =
      .ok ({ guardStore with items := guardStore.items.filter (fun x => !(x.id == 2)) },
           "Item deleted successfully") ∧
     get_item { guardStore with items := guardStore.items.filter (fun x => !(x.id == 2)) } 2 =
      .error .itemNotFound) :=
  ⟨(delete_referential_guards.1 guardStore 1
      { id := 1, name := "A", phone := "111-111-1111" } rfl rfl).1,
   delete_referential_guards.2.1 guardStore 2
      { id := 2, name := "B", phone := "222-222-2222" } rfl rfl,
   (delete_referential_guards.2.2.1 guardStore 1
      { id := 1, name := "Tea", price := 3 } rfl rfl).1,
   delete_referential_guards.2.2.2 guardStore 2
      { id := 2, name := "Coffee", price := 4 } rfl rfl⟩

/-- **C9 counterexample**: item create accepts a *negative* numeric price:
`validate_price` returns any int or float unchanged (`float(v)`) with no
sign check — only the string branch's regex excludes negatives — so
creating an item with price `-5` succeeds and persists `-5.0`.  This
falsifies "requires the price to be a non-negative number". -/
theorem item_create_accepts_negative_price :
    post_items { customers := [], items := [], orders := [], item_list := [] }
      "Widget" (.int (-5)) =
      .ok ({ customers := [],
             items := [{ id := 1, name := "Widget", price := ((-5 : Int) : Rat) }],
             orders := [], item_list := [] },
           { id := 1, name := "Widget", price := ((-5 : Int) : Rat) }) ∧
    (((-5 : Int) : Rat) < 0) := by
  refine ⟨rfl, ?_⟩
  norm_num

/-- **C9 (amended)**: item create accepts a price supplied as an integer or
float verbatim with no sign restriction (only string input is limited to
the non-negative dot-decimal pattern), and an integer-valued price is
normalized to decimal (float) form: the persisted and returned price of an
integer input `n` is the float `n` — price 3 comes back as `3.0`. -/
theorem item_create_price_normalized (s : Store) (name : String) (n : Int)
    (hfresh : s.items.any (fun i => i.name == name) = false) :
    validate_price (.int n) = .ok ((n : Int) : Rat) ∧
    post_items s name (.int n) =
      .ok ({ s with items := s.items ++
              [{ id := freshId (s.items.map (fun i => i.id)), name := name, price := ((n : Int) : Rat) }] },
           { id := freshId (s.items.map (fun i => i.id)), name := name, price := ((n : Int) : Rat) }) := by
  refine ⟨rfl, ?_⟩
  simp [post_items, validate_price, create_item, hfresh]

/-- Witness for C9 (amended): creating item "Tea" with integer price 3 on
the empty store persists and returns the float value 3 (`3.0`). -/
theorem item_create_price_normalized_witness :
    validate_price (.int 3) = .ok ((3 : Int) : Rat) ∧
    post_items { customers := [], items := [], orders := [], item_list := [] }
      "Tea" (.int 3) =
      .ok ({ customers := [],
             items := [{ id := 1, name := "Tea", price := ((3 : Int) : Rat) }],
             orders := [], item_list := [] },
           { id := 1, name := "Tea", price := ((3 : Int) : Rat) }) :=
  item_create_price_normalized
    { customers := [], items := [], orders := [], item_list := [] } "Tea" 3 rfl
